import Mathlib

/-!
# Micman2: single-instance coordination protocol

A shallow embedding of `src/main.go` (package `main` of Micman2) and the
properties of its single-instance coordination protocol.

* Go strings are byte sequences (`GoString`); the functions of package
  `strings` that the program calls are written out after their Go
  definitions, for the one-byte separator `":"` the program passes.
* The buffered channel `testModeChan` is the list of values it holds,
  oldest first, together with its capacity.
* The package-level variables and what the program shows through `systray`
  and standard output form the record `World`.
* The results of the network calls are inputs (`NetEnv`, `Conn`); the calls
  a function makes are recorded as a list of `Event`s.
-/

namespace Micman2

/-! ## Go strings and the functions of package `strings` -/

/-- A Go `byte`. -/
abbrev Byte := UInt8

/-- A Go `string`: an immutable sequence of bytes. -/
abbrev GoString := List Byte

/-- The Go string written by an ASCII literal. -/
def str (s : String) : GoString := s.toList.map fun c => UInt8.ofNat c.toNat

/-- The byte `':'`, the separator of `strings.Split(..., ":")` and of
`strings.LastIndex(addr, ":")`. -/
def colon : Byte := 58

/-- Go `strings.HasPrefix(s, pre)`:
`len(s) >= len(pre) && s[:len(pre)] == pre`. -/
def HasPrefix (s pre : GoString) : Bool :=
  decide (pre.length ≤ s.length) && decide (s.take pre.length = pre)

/-- Go `strings.Index(s, sep)` for a one-byte `sep`: the index of the first
occurrence of `sep` in `s`, or `-1`. -/
def Index : GoString → Byte → Int
  | [], _ => -1
  | c :: cs, sep =>
    if c = sep then 0
    else
      let r := Index cs sep
      if r < 0 then -1 else r + 1

/-- Go `strings.LastIndex(s, sep)` for a one-byte `sep`: the index of the last
occurrence of `sep` in `s`, or `-1`. -/
def LastIndex : GoString → Byte → Int
  | [], _ => -1
  | c :: cs, sep =>
    let r := LastIndex cs sep
    if 0 ≤ r then r + 1 else if c = sep then 0 else -1

/-- Go `strings.Count(s, sep)` for a one-byte `sep`. -/
def Count (s : GoString) (sep : Byte) : Nat := s.count sep

/-- The loop of Go `strings.genSplit`: `k` is the number of iterations left
(`n - i` after `n--`), `s` the rest of the string.
```go
for i < n {
    m := Index(s, sep)
    if m < 0 { break }
    a[i] = s[:m+sepSave]
    s = s[m+len(sep):]
    i++
}
a[i] = s
return a[:i+1]
``` -/
def genSplitLoop (sep : Byte) : Nat → GoString → List GoString
  | 0, s => [s]
  | k + 1, s =>
    let m := Index s sep
    if m < 0 then [s]
    else s.take m.toNat :: genSplitLoop sep k (s.drop (m.toNat + 1))

/-- Go `strings.Split(s, sep)` = `genSplit(s, sep, 0, -1)` for a one-byte
`sep`: `n = Count(s, sep) + 1`, capped at `len(s) + 1`, then the loop runs at
most `n - 1` times. -/
def Split (s : GoString) (sep : Byte) : List GoString :=
  genSplitLoop sep (min (Count s sep + 1) (s.length + 1) - 1) s

/-! ## Program state -/

/-- An `error` value, as printed by `%v`. -/
abbrev Err := String

/-- Equality of call results is decidable. -/
instance instDecidableEqExcept {ε α : Type} [DecidableEq ε] [DecidableEq α] :
    DecidableEq (Except ε α)
  | .ok a, .ok b =>
    if h : a = b then isTrue (by rw [h]) else isFalse (fun h2 => h (by cases h2; rfl))
  | .error a, .error b =>
    if h : a = b then isTrue (by rw [h]) else isFalse (fun h2 => h (by cases h2; rfl))
  | .ok _, .error _ => isFalse (fun h => by cases h)
  | .error _, .ok _ => isFalse (fun h => by cases h)

/-- The two icon assets, `icon.Data` and `icon2.Data`. -/
inductive Icon where
  | icon
  | icon2
  deriving DecidableEq, Repr

/-- Capacity of `testModeChan = make(chan bool, 1)`. -/
def testModeChanCap : Nat := 1

/-- The package-level variables of `main.go` and the state the program shows:
what was last passed to `systray.SetTemplateIcon`, `SetTitle`, `SetTooltip`,
the lines printed with `fmt.Println`, and the total of `time.Sleep` in ms. -/
structure World where
  /-- The values buffered in `testModeChan`, oldest first. -/
  testModeChan : List Bool
  /-- The package-level variable `testMode`. -/
  testMode : Bool
  trayIcon : Option Icon
  title : String
  tooltip : String
  stdout : List String
  sleptMs : Nat
  deriving DecidableEq, Repr

/-- The state at program start: an empty channel, `testMode` at its zero
value, nothing shown. -/
def World.init : World :=
  { testModeChan := [], testMode := false, trayIcon := none, title := "",
    tooltip := "", stdout := [], sleptMs := 0 }

/-- A non-blocking send on a buffered channel of capacity `cap` (the `case
ch <- v` of a `select` with a `default`): `none` when the send cannot
proceed. -/
def chanTrySend (cap : Nat) (buf : List Bool) (v : Bool) : Option (List Bool) :=
  if buf.length < cap then some (buf ++ [v]) else none

/-- A non-blocking receive on a buffered channel (the `case v := <-ch` of a
`select` with a `default`): `none` when the channel is empty. -/
def chanTryRecv (buf : List Bool) : Option (Bool × List Bool) :=
  match buf with
  | [] => none
  | v :: rest => some (v, rest)

/-! ## The leader side: decoding and the notification channel -/

/-- Go `updateSystrayForTestMode`:
```go
select {
case testModeChan <- isTestMode:
default:
    // Channel is full, ignore
}
``` -/
def updateSystrayForTestMode (isTestMode : Bool) (w : World) : World :=
  match chanTrySend testModeChanCap w.testModeChan isTestMode with
  | some buf => { w with testModeChan := buf }
  | none => w

/-- Lines 121-134 of `handleFlagConnection`, from `message := string(buf[:n])`
on: the argument of the call to `updateSystrayForTestMode` that the message
leads to, or `none` when no call is made. -/
def decodeFlagMessage (message : GoString) : Option Bool :=
  if HasPrefix message (str "FLAG:") then
    let parts := Split (message.drop 5) colon
    if h : 1 < parts.length then
      if parts[1] = str "TEST" then some true
      else if parts[1] = str "NOTEST" then some false
      else none
    else none
  else none

/-- An accepted connection as `handleFlagConnection` sees it: the outcome of
its single `conn.Read` (the bytes available, or an error) and whether it has
been closed. -/
structure Conn where
  read : Except Err GoString
  closed : Bool
  deriving DecidableEq

/-- Go `handleFlagConnection`: one `Read` into a buffer of 1024 bytes, then
the decoding; the deferred `conn.Close()` runs on every path. -/
def handleFlagConnection (conn : Conn) (w : World) : World × Conn :=
  match conn.read with
  | .error _ => (w, { conn with closed := true })
  | .ok incoming =>
    let message := incoming.take 1024
    match decodeFlagMessage message with
    | some isTestMode => (updateSystrayForTestMode isTestMode w, { conn with closed := true })
    | none => (w, { conn with closed := true })

/-- One iteration of the `for { select { ... } }` loop of the goroutine
started by `onReady`, with the value received from `testModeChan`, if any. -/
def consumerIteration (w : World) : Option Bool × World :=
  match chanTryRecv w.testModeChan with
  | some (isTestMode, rest) =>
    if isTestMode then
      (some isTestMode,
        { w with testModeChan := rest
                 stdout := w.stdout ++ ["Switching to TEST mode!"]
                 trayIcon := some Icon.icon2
                 title := "Awesome App (TEST MODE)"
                 tooltip := "Running in TEST mode! 🧪" })
    else
      (some isTestMode,
        { w with testModeChan := rest
                 stdout := w.stdout ++ ["Switching to NORMAL mode!"]
                 trayIcon := some Icon.icon
                 title := "Awesome App"
                 tooltip := "Lantern" })
  | none => (none, { w with sleptMs := w.sleptMs + 100 })

/-- Go `onReady` up to the loop: the title set from `testMode`, then the
first three calls of the second goroutine. The goroutine waiting on
`mQuitOrig.ClickedCh` is not part of the state. -/
def onReady (w : World) : World :=
  let w1 : World :=
    if w.testMode then
      { w with stdout := w.stdout ++ ["Running in TEST mode!"]
               title := "Awesome App (TEST MODE)"
               tooltip := "Running in TEST mode! 🧪" }
    else
      { w with trayIcon := some Icon.icon
               title := "Awesome App"
               tooltip := "Lantern" }
  { w1 with trayIcon := some Icon.icon, title := "Micman 2", tooltip := "Mic Indicator" }

/-! ## Start-up: `main`, `checkSingleInstance`, `startFlagServer` -/

/-- The calls a function makes to the network, the logger, the scheduler and
`systray.Run`, in program order. -/
inductive Event where
  /-- A call `net.Listen("tcp", addr)`. -/
  | listen (addr : GoString)
  /-- A call `net.Dial("tcp", addr)`. -/
  | dial (addr : GoString)
  /-- A call `conn.Write([]byte(message))`. -/
  | write (message : GoString)
  /-- A call `log.Printf(format, err)`. -/
  | logPrintf (format : String) (err : Err)
  /-- A call `conn.Close()`. -/
  | closeConn
  /-- A call `listener.Close()`. -/
  | closeListener
  /-- The statement `go startFlagServer(port)`. -/
  | goStartFlagServer (port : GoString)
  /-- The statement `go handleFlagConnection(conn)`. -/
  | goHandleFlagConnection (conn : Conn)
  /-- The call `systray.Run(onReady, onExit)`: the application starts. -/
  | systrayRun
  deriving DecidableEq

/-- The messages passed to `conn.Write`, in order. -/
def writes : List Event → List GoString
  | [] => []
  | Event.write m :: es => m :: writes es
  | _ :: es => writes es

/-- The outcomes of the three network calls of `checkSingleInstance`. -/
structure NetEnv where
  /-- `net.Listen("tcp", "127.0.0.1:0")`: on success `listener.Addr().String()`. -/
  listenEphemeral : Except Err GoString
  /-- `net.Dial("tcp", "127.0.0.1:12345")`. -/
  dial : Except Err Unit
  /-- `conn.Write([]byte(message))`. -/
  write : Except Err Unit
  deriving DecidableEq

/-- The local `existingPort := "12345"`. -/
def existingPort : GoString := str "12345"

/-- The expression `addr[strings.LastIndex(addr, ":")+1:]`. -/
def portOf (addr : GoString) : GoString :=
  addr.drop (LastIndex addr colon + 1).toNat

/-- The value of `message` at line 79. The first assignment,
`fmt.Sprintf("FLAG:%s", port)`, is overwritten in both branches of
`if testMode`: by `fmt.Sprintf("FLAG:%s:TEST", port)` or by
`fmt.Sprintf("FLAG:%s:NOTEST", port)`. -/
def flagMessage (testMode : Bool) (port : GoString) : GoString :=
  if testMode then str "FLAG:" ++ port ++ str ":TEST"
  else str "FLAG:" ++ port ++ str ":NOTEST"

/-- Go `checkSingleInstance`: the returned value and the calls made. The
deferred `Close` calls run at the return, last deferred first. -/
def checkSingleInstance (env : NetEnv) (w : World) : Bool × List Event :=
  match env.listenEphemeral with
  | .error err =>
    (false, [Event.listen (str "127.0.0.1:0"),
             Event.logPrintf "Failed to create listener: %v" err])
  | .ok addr =>
    let port := portOf addr
    match env.dial with
    | .ok _ =>
      let message := flagMessage w.testMode port
      match env.write with
      | .error err =>
        (false, [Event.listen (str "127.0.0.1:0"),
                 Event.dial (str "127.0.0.1:" ++ existingPort),
                 Event.write message,
                 Event.logPrintf "Failed to send flags to existing instance: %v" err,
                 Event.closeConn, Event.closeListener])
      | .ok _ =>
        (false, [Event.listen (str "127.0.0.1:0"),
                 Event.dial (str "127.0.0.1:" ++ existingPort),
                 Event.write message,
                 Event.closeConn, Event.closeListener])
    | .error _ =>
      (true, [Event.listen (str "127.0.0.1:0"),
              Event.dial (str "127.0.0.1:" ++ existingPort),
              Event.goStartFlagServer existingPort,
              Event.closeListener])

/-- The accept loop of `startFlagServer` over the outcomes of the successive
`listener.Accept()` calls: an error continues the loop, a connection is handed
to its own goroutine. -/
def acceptLoop : List (Except Err Conn) → List Event
  | [] => []
  | .error _ :: rest => acceptLoop rest
  | .ok conn :: rest => Event.goHandleFlagConnection conn :: acceptLoop rest

/-- Go `startFlagServer(port)`, given the outcome `bind` of its `net.Listen`
and the outcomes of the `Accept` calls that follow. -/
def startFlagServer (port : GoString) (bind : Except Err Unit)
    (accepts : List (Except Err Conn)) : List Event :=
  match bind with
  | .error err =>
    [Event.listen (str "127.0.0.1:" ++ port),
     Event.logPrintf "Failed to start flag server: %v" err]
  | .ok _ => Event.listen (str "127.0.0.1:" ++ port) :: acceptLoop accepts

/-- The flag handling of `main`, lines 30-34. -/
def setTestMode (test notest : Bool) (w : World) : World :=
  if test then { w with testMode := true }
  else if notest then { w with testMode := false }
  else w

/-- Go `main`, given the values of the flags `-test` and `-notest`: the state
after flag handling and the calls made by the main goroutine. -/
def main (test notest : Bool) (env : NetEnv) (w : World) : World × List Event :=
  let w1 := setTestMode test notest w
  let r := checkSingleInstance env w1
  if !r.1 then (w1, r.2)
  else (w1, r.2 ++ [Event.systrayRun])

/-! ## Pushes and drains of the notification channel -/

/-- One operation on `testModeChan`: a call `updateSystrayForTestMode(v)` by a
decode goroutine, or one iteration of the consumer loop. -/
inductive ChanOp where
  | push (v : Bool)
  | drain
  deriving DecidableEq

/-- A state together with the arguments of the pushes made so far and the
values the consumer loop has received so far, both oldest first. -/
structure ChanRun where
  world : World
  pushed : List Bool
  taken : List Bool
  deriving DecidableEq

/-- One operation of an interleaving. -/
def ChanRun.step (t : ChanRun) : ChanOp → ChanRun
  | ChanOp.push v =>
    { world := updateSystrayForTestMode v t.world
      pushed := t.pushed ++ [v]
      taken := t.taken }
  | ChanOp.drain =>
    { world := (consumerIteration t.world).2
      pushed := t.pushed
      taken := t.taken ++ (consumerIteration t.world).1.toList }

/-- An interleaving of pushes and drains, run from the state `w`. -/
def runOps (ops : List ChanOp) (w : World) : ChanRun :=
  ops.foldl ChanRun.step { world := w, pushed := [], taken := [] }

/-! ## The parsing rule of the specification -/

/-- The mode a follower asks for. -/
inductive ModeRequest where
  | Normal
  | Test
  deriving DecidableEq, Repr

/-- The argument of `updateSystrayForTestMode` as a mode request. -/
def ModeRequest.ofBool : Bool → ModeRequest
  | true => ModeRequest.Test
  | false => ModeRequest.Normal

/-- The parsing rule in the words of the specification: strip the `FLAG:`
prefix; split the remainder on `:`; if a second field exists it is the mode,
`TEST` for Test and `NOTEST` for Normal; without a second field, or with any
other token, the message is discarded. -/
def specParse (msg : GoString) : Option ModeRequest :=
  if str "FLAG:" <+: msg then
    match (List.splitOn colon (msg.drop (str "FLAG:").length))[1]? with
    | some field =>
      if field = str "TEST" then some ModeRequest.Test
      else if field = str "NOTEST" then some ModeRequest.Normal
      else none
    | none => none
  else none

/-! ## Lemmas on the string functions -/

theorem hasPrefix_iff (s pre : GoString) : HasPrefix s pre = true ↔ pre <+: s := by
  unfold HasPrefix
  simp only [Bool.and_eq_true, decide_eq_true_eq]
  constructor
  · rintro ⟨_, h⟩
    have ht : s.take pre.length <+: s := List.take_prefix _ _
    rw [h] at ht
    exact ht
  · intro h
    exact ⟨h.length_le, List.prefix_iff_eq_take.mp h |>.symm⟩

theorem index_neg_iff (sep : Byte) (s : GoString) : Index s sep < 0 ↔ sep ∉ s := by
  induction s with
  | nil => simp [Index]
  | cons c cs ih =>
    unfold Index
    by_cases hc : c = sep
    · simp [hc]
    · have hc2 : ¬ sep = c := fun h => hc h.symm
      by_cases hr : Index cs sep < 0
      · simp [hc, hr, hc2, ih.mp hr]
      · have : sep ∈ cs := by
          by_contra hm
          exact hr (ih.mpr hm)
        simp only [hc, if_false, hr, List.mem_cons, this, or_true, not_true_eq_false, iff_false]
        omega

theorem index_split (sep : Byte) (s : GoString) (h : ¬ Index s sep < 0) :
    sep ∉ s.take (Index s sep).toNat ∧
      s = s.take (Index s sep).toNat ++ sep :: s.drop ((Index s sep).toNat + 1) := by
  induction s with
  | nil => simp [Index] at h
  | cons c cs ih =>
    unfold Index at h ⊢
    by_cases hc : c = sep
    · simp [hc]
    · have hc2 : ¬ sep = c := fun h => hc h.symm
      simp only [hc, if_false] at h ⊢
      by_cases hr : Index cs sep < 0
      · simp [hr] at h
      · obtain ⟨h1, h2⟩ := ih hr
        simp only [hr, if_false]
        have e : (Index cs sep + 1).toNat = (Index cs sep).toNat + 1 := by omega
        rw [e]
        simp only [List.take_succ_cons, List.mem_cons, hc2, h1, or_self, not_false_eq_true,
          List.drop_succ_cons, List.cons_append, true_and]
        exact congrArg (c :: ·) h2

theorem splitOn_of_not_mem (sep : Byte) (s : GoString) (h : sep ∉ s) :
    s.splitOn sep = [s] := by
  apply List.splitOnP_eq_single
  intro x hx hp
  have : x = sep := by simpa using hp
  exact h (this ▸ hx)

theorem splitOn_first (sep : Byte) (a b : GoString) (h : sep ∉ a) :
    (a ++ sep :: b).splitOn sep = a :: b.splitOn sep := by
  apply List.splitOnP_first
  · intro x hx hp
    have : x = sep := by simpa using hp
    exact h (this ▸ hx)
  · simp

theorem genSplitLoop_eq (sep : Byte) (k : Nat) :
    ∀ s : GoString, s.count sep ≤ k → genSplitLoop sep k s = s.splitOn sep := by
  induction k with
  | zero =>
    intro s hs
    have : sep ∉ s := by
      intro hm
      have := List.count_pos_iff.mpr hm
      omega
    simp [genSplitLoop, splitOn_of_not_mem sep s this]
  | succ k ih =>
    intro s hs
    unfold genSplitLoop
    by_cases hr : Index s sep < 0
    · simp [hr, splitOn_of_not_mem sep s ((index_neg_iff sep s).mp hr)]
    · obtain ⟨h1, h2⟩ := index_split sep s hr
      simp only [hr, if_false]
      have hc : (s.drop ((Index s sep).toNat + 1)).count sep ≤ k := by
        have e := congrArg (List.count sep) h2
        rw [List.count_append, List.count_cons_self, List.count_eq_zero_of_not_mem h1] at e
        omega
      rw [ih _ hc]
      conv_rhs => rw [h2]
      exact (splitOn_first sep _ _ h1).symm

theorem split_eq_splitOn (s : GoString) (sep : Byte) : Split s sep = s.splitOn sep := by
  unfold Split Count
  apply genSplitLoop_eq
  have := List.count_le_length sep s
  omega

/-! ## Decoding -/

theorem decodeFlagMessage_eq (msg : GoString) :
    decodeFlagMessage msg =
      if str "FLAG:" <+: msg then
        match (List.splitOn colon (msg.drop 5))[1]? with
        | some field =>
          if field = str "TEST" then some true
          else if field = str "NOTEST" then some false
          else none
        | none => none
      else none := by
  unfold decodeFlagMessage
  by_cases hp : str "FLAG:" <+: msg
  · rw [if_pos ((hasPrefix_iff _ _).mpr hp), if_pos hp]
    simp only [split_eq_splitOn]
    by_cases hl : 1 < (List.splitOn colon (List.drop 5 msg)).length
    · rw [dif_pos hl, List.getElem?_eq_getElem hl]
    · rw [dif_neg hl, List.getElem?_eq_none (by omega)]
  · have : ¬ HasPrefix msg (str "FLAG:") = true := fun h => hp ((hasPrefix_iff _ _).mp h)
    rw [if_neg this, if_neg hp]

theorem lastIndex_drop (sep : Byte) (s : GoString) :
    sep ∉ s.drop (LastIndex s sep + 1).toNat := by
  induction s with
  | nil => simp [LastIndex]
  | cons c cs ih =>
    unfold LastIndex
    by_cases hr : 0 ≤ LastIndex cs sep
    · simp only [hr, if_true]
      have e : (LastIndex cs sep + 1 + 1).toNat = (LastIndex cs sep + 1).toNat + 1 := by omega
      rw [e, List.drop_succ_cons]
      exact ih
    · have e : (LastIndex cs sep + 1).toNat = 0 := by omega
      rw [e, List.drop_zero] at ih
      simp only [hr, if_false]
      by_cases hc : c = sep
      · simpa [hc] using ih
      · have hc2 : ¬ sep = c := fun h => hc h.symm
        simp [hc, hc2, ih]

theorem portOf_no_colon (addr : GoString) : colon ∉ portOf addr :=
  lastIndex_drop colon addr

theorem decode_flagMessage (m : Bool) (p : GoString) (hp : colon ∉ p) :
    decodeFlagMessage (flagMessage m p) = some m := by
  have hpre : str "FLAG:" <+: flagMessage m p := by
    unfold flagMessage
    split <;> exact ⟨_, (List.append_assoc _ _ _).symm⟩
  have hdrop : ∀ t : GoString, List.drop 5 (str "FLAG:" ++ p ++ t) = p ++ t := by
    intro t
    rw [List.append_assoc]
    exact List.drop_left' (by decide)
  rw [decodeFlagMessage_eq, if_pos hpre]
  cases m with
  | true =>
    have e : List.drop 5 (flagMessage true p) = p ++ colon :: str "TEST" := by
      simp only [flagMessage, if_true]
      exact hdrop _
    rw [e, splitOn_first colon p _ hp]
    have : List.splitOn colon (str "TEST") = [str "TEST"] := by decide
    simp [this]
  | false =>
    have e : List.drop 5 (flagMessage false p) = p ++ colon :: str "NOTEST" := by
      simp only [flagMessage]
      exact hdrop _
    rw [e, splitOn_first colon p _ hp]
    have : List.splitOn colon (str "NOTEST") = [str "NOTEST"] := by decide
    have h2 : ¬ str "NOTEST" = str "TEST" := by decide
    simp [this, h2]

theorem flag_not_before_take (msg : GoString) (n : Nat) (h : ¬ str "FLAG:" <+: msg) :
    ¬ str "FLAG:" <+: msg.take n := by
  intro hp
  have ht : msg.take n <+: msg := List.take_prefix n msg
  exact h (hp.trans ht)

theorem handle_of_decode_none (incoming : GoString) (c : Bool) (w : World)
    (h : decodeFlagMessage (incoming.take 1024) = none) :
    handleFlagConnection ⟨.ok incoming, c⟩ w = (w, ⟨.ok incoming, true⟩) := by
  simp [handleFlagConnection, h]

theorem handle_of_decode_some (incoming : GoString) (c v : Bool) (w : World)
    (h : decodeFlagMessage (incoming.take 1024) = some v) :
    handleFlagConnection ⟨.ok incoming, c⟩ w =
      (updateSystrayForTestMode v w, ⟨.ok incoming, true⟩) := by
  simp [handleFlagConnection, h]

theorem push_empty (v : Bool) (w : World) (h : w.testModeChan = []) :
    updateSystrayForTestMode v w = { w with testModeChan := [v] } := by
  simp [updateSystrayForTestMode, chanTrySend, testModeChanCap, h]

theorem push_full (v : Bool) (w : World) (h : 1 ≤ w.testModeChan.length) :
    updateSystrayForTestMode v w = w := by
  have : ¬ w.testModeChan.length < 1 := by omega
  simp [updateSystrayForTestMode, chanTrySend, testModeChanCap, this]

theorem push_length_le (v : Bool) (w : World) (h : w.testModeChan.length ≤ 1) :
    (updateSystrayForTestMode v w).testModeChan.length ≤ 1 := by
  by_cases h0 : w.testModeChan = []
  · rw [push_empty v w h0]; simp
  · have : 1 ≤ w.testModeChan.length := by
      cases hc : w.testModeChan with
      | nil => exact absurd hc h0
      | cons a l => simp
    rw [push_full v w this]; exact h

theorem drain_chan (w : World) :
    (consumerIteration w).2.testModeChan = w.testModeChan.tail ∧
      (consumerIteration w).1 = w.testModeChan.head? ∧
      (consumerIteration w).2.testMode = w.testMode := by
  unfold consumerIteration chanTryRecv
  cases hc : w.testModeChan with
  | nil => simp
  | cons a l => cases a <;> simp

theorem runOps_snoc (ops : List ChanOp) (op : ChanOp) (w : World) :
    runOps (ops ++ [op]) w = (runOps ops w).step op := by
  simp [runOps, List.foldl_append]

theorem runOps_length_le (ops : List ChanOp) (w : World) (h : w.testModeChan.length ≤ 1) :
    (runOps ops w).world.testModeChan.length ≤ 1 := by
  induction ops using List.reverseRecOn with
  | nil => simpa [runOps] using h
  | append_singleton ops op ih =>
    rw [runOps_snoc]
    cases op with
    | push v => exact push_length_le v _ ih
    | drain =>
      show (consumerIteration (runOps ops w).world).2.testModeChan.length ≤ 1
      rw [(drain_chan _).1, List.length_tail]
      omega

/-- C1: round trip of the wire format. For every mode `m` and every port
string `p` without `':'`, the message the follower builds in
`checkSingleInstance` is decoded by the parsing logic of
`handleFlagConnection` into exactly one call of `updateSystrayForTestMode`,
with argument `m` (true for Test, false for Normal), whatever `p` is; the
port that `checkSingleInstance` cuts out of any listener address is such a
`p`. -/
theorem wire_round_trip (m : Bool) (p : GoString) (hp : colon ∉ p) :
    decodeFlagMessage (flagMessage m p) = some m ∧
      (decodeFlagMessage (flagMessage m p)).map ModeRequest.ofBool =
        some (if m then ModeRequest.Test else ModeRequest.Normal) ∧
      ∀ addr : GoString, decodeFlagMessage (flagMessage m (portOf addr)) = some m := by
  rw [decode_flagMessage m p hp]
  refine ⟨rfl, ?_, fun addr => decode_flagMessage m _ (portOf_no_colon addr)⟩
  cases m <;> simp [ModeRequest.ofBool]

/-- C1 at mode Normal and port `51234`. -/
theorem wire_round_trip_witness :
    colon ∉ str "51234" ∧
      decodeFlagMessage (flagMessage false (str "51234")) = some false :=
  ⟨by decide, (wire_round_trip false (str "51234") (by decide)).1⟩

/-- C2: the decoder of `handleFlagConnection` is the parsing rule of the
specification on every byte string: it equals `specParse`; it yields Test
exactly when the message starts with `FLAG:` and the second `:`-separated
field of the remainder is `TEST`, Normal exactly when that field is `NOTEST`,
and nothing in every other case. -/
theorem decodeFlagMessage_refines_specParse (msg : GoString) :
    (decodeFlagMessage msg).map ModeRequest.ofBool = specParse msg ∧
      (decodeFlagMessage msg = some true ↔
        str "FLAG:" <+: msg ∧
          (List.splitOn colon (msg.drop 5))[1]? = some (str "TEST")) ∧
      (decodeFlagMessage msg = some false ↔
        str "FLAG:" <+: msg ∧
          (List.splitOn colon (msg.drop 5))[1]? = some (str "NOTEST")) ∧
      (decodeFlagMessage msg = none ↔
        ¬ (str "FLAG:" <+: msg ∧
          ((List.splitOn colon (msg.drop 5))[1]? = some (str "TEST") ∨
            (List.splitOn colon (msg.drop 5))[1]? = some (str "NOTEST")))) := by
  have hne : ¬ str "NOTEST" = str "TEST" := by decide
  have hlen : (str "FLAG:").length = 5 := by decide
  rw [decodeFlagMessage_eq]
  unfold specParse
  rw [hlen]
  by_cases hp : str "FLAG:" <+: msg
  · simp only [if_pos hp, hp, true_and]
    cases hf : (List.splitOn colon (List.drop 5 msg))[1]? with
    | none => simp
    | some field =>
      by_cases h1 : field = str "TEST"
      · subst h1
        simp [ModeRequest.ofBool, Ne.symm hne]
      · by_cases h2 : field = str "NOTEST"
        · subst h2
          simp [ModeRequest.ofBool, hne]
        · simp [h1, h2]
  · simp [hp]

/-- C3: malformed messages and read errors. For the message `FLAG:`, for
`FLAG:1234:GARBAGE`, for every message that does not start with `FLAG:`, and
for a connection whose read fails, `handleFlagConnection` returns with the
state (notification channel and mode state included) as it was before the
call, and with the connection closed. -/
theorem handleFlagConnection_malformed (w : World) (c : Bool) :
    handleFlagConnection ⟨.ok (str "FLAG:"), c⟩ w = (w, ⟨.ok (str "FLAG:"), true⟩) ∧
      handleFlagConnection ⟨.ok (str "FLAG:1234:GARBAGE"), c⟩ w =
        (w, ⟨.ok (str "FLAG:1234:GARBAGE"), true⟩) ∧
      (∀ msg : GoString, ¬ str "FLAG:" <+: msg →
        handleFlagConnection ⟨.ok msg, c⟩ w = (w, ⟨.ok msg, true⟩)) ∧
      (∀ err : Err, handleFlagConnection ⟨.error err, c⟩ w = (w, ⟨.error err, true⟩)) := by
  refine ⟨?_, ?_, ?_, ?_⟩
  · exact handle_of_decode_none _ c w (by decide)
  · exact handle_of_decode_none _ c w (by decide)
  · intro msg h
    apply handle_of_decode_none
    rw [decodeFlagMessage_eq, if_neg (flag_not_before_take msg 1024 h)]
  · intro err
    rfl

/-- C3 at a message with a wrong first field. -/
theorem handleFlagConnection_malformed_witness :
    ¬ str "FLAG:" <+: str "HELLO:1234:TEST" ∧
      handleFlagConnection ⟨.ok (str "HELLO:1234:TEST"), false⟩ World.init =
        (World.init, ⟨.ok (str "HELLO:1234:TEST"), true⟩) :=
  ⟨by decide,
    (handleFlagConnection_malformed World.init false).2.2.1 (str "HELLO:1234:TEST") (by decide)⟩

/-- C4: push semantics of the capacity-1 channel. `updateSystrayForTestMode v`
always returns; on an empty channel it leaves the channel holding exactly `v`;
on a channel holding `u` it drops `v` and leaves the channel holding `u`, the
rest of the state unchanged; and over every sequence of pushes and drains from
an empty channel the channel never holds more than one value. -/
theorem updateSystrayForTestMode_push (v u : Bool) (w : World) :
    updateSystrayForTestMode v { w with testModeChan := [] } =
        { w with testModeChan := [v] } ∧
      updateSystrayForTestMode v { w with testModeChan := [u] } =
        { w with testModeChan := [u] } ∧
      (updateSystrayForTestMode v w).testModeChan.length ≤
        max testModeChanCap w.testModeChan.length ∧
      ∀ ops : List ChanOp,
        (runOps ops { w with testModeChan := [] }).world.testModeChan.length ≤
          testModeChanCap := by
  refine ⟨push_empty v _ rfl, push_full v _ (by simp), ?_, ?_⟩
  · by_cases h0 : w.testModeChan = []
    · rw [push_empty v w h0]; simp [testModeChanCap]
    · have : 1 ≤ w.testModeChan.length := by
        cases hc : w.testModeChan with
        | nil => exact absurd hc h0
        | cons a l => simp
      rw [push_full v w this]; exact le_max_right _ _
  · intro ops
    exact runOps_length_le ops _ (by simp)

/-! ## Delivery -/

/-- C5, as stated, fails: after the leader (started without flags, so
`testMode = false`) handles `FLAG:1234:TEST` on an empty channel and the
consumer loop runs one iteration, the loop has received `true`, yet the cell
`testMode` is still `false`. -/
theorem consumer_leaves_testMode_counterexample :
    (consumerIteration
        (handleFlagConnection ⟨.ok (str "FLAG:1234:TEST"), false⟩
          (main false false
            ⟨.ok (str "127.0.0.1:4001"), .error "connection refused", .ok ()⟩
            World.init).1).1).1 = some true ∧
      ¬ (consumerIteration
        (handleFlagConnection ⟨.ok (str "FLAG:1234:TEST"), false⟩
          (main false false
            ⟨.ok (str "127.0.0.1:4001"), .error "connection refused", .ok ()⟩
            World.init).1).1).2.testMode = true := by
  decide

/-- C5, amended: starting from an empty channel, when the leader handles a
single message `FLAG:<port>:TEST` (read whole) and the consumer loop then runs
one iteration, the loop receives `true` and sets the presentation to test
mode (icon `icon2`, title `Awesome App (TEST MODE)`, its tooltip, one printed
line), leaving the channel empty and the cell `testMode` as it was. In
general, whenever the consumer loop finds a value in the channel it removes
it and sets the presentation from it, and no iteration writes `testMode`. -/
theorem consumer_applies_received_value (w : World) (port : GoString) (c : Bool)
    (hp : colon ∉ port) (hlen : (flagMessage true port).length ≤ 1024) :
    consumerIteration
        (handleFlagConnection ⟨.ok (flagMessage true port), c⟩
          { w with testModeChan := [] }).1 =
      (some true,
        { w with testModeChan := []
                 stdout := w.stdout ++ ["Switching to TEST mode!"]
                 trayIcon := some Icon.icon2
                 title := "Awesome App (TEST MODE)"
                 tooltip := "Running in TEST mode! 🧪" }) ∧
      (∀ (w0 : World) (v : Bool) (rest : List Bool), w0.testModeChan = v :: rest →
        (consumerIteration w0).1 = some v ∧
          (consumerIteration w0).2.testModeChan = rest ∧
          (consumerIteration w0).2.title =
            (if v then "Awesome App (TEST MODE)" else "Awesome App") ∧
          (consumerIteration w0).2.trayIcon =
            some (if v then Icon.icon2 else Icon.icon)) ∧
      (∀ w0 : World, (consumerIteration w0).2.testMode = w0.testMode) := by
  refine ⟨?_, ?_, fun w0 => (drain_chan w0).2.2⟩
  · have hd : decodeFlagMessage ((flagMessage true port).take 1024) = some true := by
      rw [List.take_of_length_le hlen]
      exact decode_flagMessage true port hp
    rw [handle_of_decode_some _ c true _ hd, push_empty true _ rfl]
    simp [consumerIteration, chanTryRecv]
  · intro w0 v rest h
    unfold consumerIteration chanTryRecv
    rw [h]
    cases v <;> simp

/-- C5, amended, at port `51234` from the initial state. -/
theorem consumer_applies_received_value_witness :
    colon ∉ str "51234" ∧ (flagMessage true (str "51234")).length ≤ 1024 ∧
      consumerIteration
        (handleFlagConnection ⟨.ok (flagMessage true (str "51234")), false⟩
          { World.init with testModeChan := [] }).1 =
      (some true,
        { World.init with testModeChan := []
                          stdout := World.init.stdout ++ ["Switching to TEST mode!"]
                          trayIcon := some Icon.icon2
                          title := "Awesome App (TEST MODE)"
                          tooltip := "Running in TEST mode! 🧪" }) :=
  ⟨by decide, by decide,
    (consumer_applies_received_value World.init (str "51234") false
      (by decide) (by decide)).1⟩

/-! ## Start-up -/

/-- C6, as stated, fails: with the ephemeral listen succeeding and the dial
refused, `checkSingleInstance` returns `true` and `main` reaches
`systray.Run`; when the `net.Listen` of the `startFlagServer` it started then
fails, that goroutine logs the error and returns. -/
theorem bind_failure_counterexample :
    (checkSingleInstance
        ⟨.ok (str "127.0.0.1:4001"), .error "connection refused", .ok ()⟩
        World.init).1 = true ∧
      Event.systrayRun ∈
        (main false false
          ⟨.ok (str "127.0.0.1:4001"), .error "connection refused", .ok ()⟩
          World.init).2 ∧
      startFlagServer existingPort (.error "permission denied") [] =
        [Event.listen (str "127.0.0.1:12345"),
         Event.logPrintf "Failed to start flag server: %v" "permission denied"] := by
  decide

/-- C6, amended: `startFlagServer` is started exactly when
`checkSingleInstance` returns `true`, that is after a successful ephemeral
listen and a failed dial, and then `main` reaches `systray.Run`. If binding
`127.0.0.1:12345` then fails in `startFlagServer`, the goroutine logs the
error and returns without accepting any connection; the application has
started all the same. -/
theorem bind_failure_logs_and_app_starts (test notest : Bool) (env : NetEnv) (w : World)
    (addr : GoString) (e err : Err) (wr : Except Err Unit)
    (accepts : List (Except Err Conn)) :
    (Event.goStartFlagServer existingPort ∈ (checkSingleInstance env w).2 ↔
        (checkSingleInstance env w).1 = true) ∧
      (checkSingleInstance ⟨.ok addr, .error e, wr⟩ w).1 = true ∧
      (main test notest ⟨.ok addr, .error e, wr⟩ w).2 =
        [Event.listen (str "127.0.0.1:0"), Event.dial (str "127.0.0.1:12345"),
         Event.goStartFlagServer existingPort, Event.closeListener, Event.systrayRun] ∧
      startFlagServer existingPort (.error err) accepts =
        [Event.listen (str "127.0.0.1:12345"),
         Event.logPrintf "Failed to start flag server: %v" err] := by
  have h12345 : str "127.0.0.1:" ++ existingPort = str "127.0.0.1:12345" := by decide
  refine ⟨?_, rfl, ?_, ?_⟩
  · obtain ⟨l, d, wr2⟩ := env
    cases l <;> cases d <;> cases wr2 <;> simp [checkSingleInstance]
  · simp [main, checkSingleInstance, h12345]
  · simp [startFlagServer, h12345]

theorem setTestMode_testMode (test notest : Bool) :
    (setTestMode test notest World.init).testMode = test := by
  cases test <;> cases notest <;> rfl

/-- C7: follower exit independence. Once the dial has succeeded,
`checkSingleInstance` returns `false` and `main` returns without reaching
`systray.Run`, whether the write succeeds or fails; the calls made after a
failed write are those made after a successful one plus one log line, the
state is the same, and exactly one message is written in both cases. -/
theorem follower_exits_whatever_the_write (test notest : Bool) (w : World)
    (addr : GoString) (err : Err) :
    (checkSingleInstance ⟨.ok addr, .ok (), .ok ()⟩ w).1 = false ∧
      (checkSingleInstance ⟨.ok addr, .ok (), .error err⟩ w).1 = false ∧
      main test notest ⟨.ok addr, .ok (), .ok ()⟩ w =
        (setTestMode test notest w,
          [Event.listen (str "127.0.0.1:0"), Event.dial (str "127.0.0.1:12345"),
           Event.write (flagMessage (setTestMode test notest w).testMode (portOf addr)),
           Event.closeConn, Event.closeListener]) ∧
      main test notest ⟨.ok addr, .ok (), .error err⟩ w =
        (setTestMode test notest w,
          [Event.listen (str "127.0.0.1:0"), Event.dial (str "127.0.0.1:12345"),
           Event.write (flagMessage (setTestMode test notest w).testMode (portOf addr)),
           Event.logPrintf "Failed to send flags to existing instance: %v" err,
           Event.closeConn, Event.closeListener]) ∧
      Event.systrayRun ∉ (main test notest ⟨.ok addr, .ok (), .ok ()⟩ w).2 ∧
      Event.systrayRun ∉ (main test notest ⟨.ok addr, .ok (), .error err⟩ w).2 ∧
      (writes (main test notest ⟨.ok addr, .ok (), .ok ()⟩ w).2).length = 1 ∧
      (writes (main test notest ⟨.ok addr, .ok (), .error err⟩ w).2).length = 1 := by
  have h12345 : str "127.0.0.1:" ++ existingPort = str "127.0.0.1:12345" := by decide
  simp [main, checkSingleInstance, writes, h12345]

/-- C10: the role decision of `checkSingleInstance` over the outcomes of its
network calls. It returns `true` exactly when the ephemeral listen succeeds
and the dial fails, and then it has started the flag server on port `12345`.
When the ephemeral listen fails it returns `false` after the listen and one
log line, without dialing or writing. When the dial succeeds it writes
exactly one message, `FLAG:<port>:TEST` if `testMode` is set and
`FLAG:<port>:NOTEST` otherwise (never the bare `FLAG:<port>`), and returns
`false`; run from `main`, `testMode` is the value of the flag `-test`. -/
theorem checkSingleInstance_decision_table (env : NetEnv) (w : World) (test notest : Bool)
    (addr : GoString) (e : Err) (d wr : Except Err Unit) :
    ((checkSingleInstance env w).1 = true ↔
        (∃ a, env.listenEphemeral = .ok a) ∧ ∃ e2, env.dial = .error e2) ∧
      checkSingleInstance ⟨.ok addr, .error e, wr⟩ w =
        (true, [Event.listen (str "127.0.0.1:0"), Event.dial (str "127.0.0.1:12345"),
                Event.goStartFlagServer (str "12345"), Event.closeListener]) ∧
      checkSingleInstance ⟨.error e, d, wr⟩ w =
        (false, [Event.listen (str "127.0.0.1:0"),
                 Event.logPrintf "Failed to create listener: %v" e]) ∧
      (checkSingleInstance ⟨.ok addr, .ok (), wr⟩ w).1 = false ∧
      writes (checkSingleInstance ⟨.ok addr, .ok (), wr⟩ w).2 =
        [str "FLAG:" ++ portOf addr ++
          (if w.testMode then str ":TEST" else str ":NOTEST")] ∧
      writes (checkSingleInstance ⟨.ok addr, .ok (), wr⟩ w).2 ≠
        [str "FLAG:" ++ portOf addr] ∧
      writes (main test notest ⟨.ok addr, .ok (), wr⟩ World.init).2 =
        [str "FLAG:" ++ portOf addr ++ (if test then str ":TEST" else str ":NOTEST")] := by
  have hw : ∀ w2 : World, writes (checkSingleInstance ⟨.ok addr, .ok (), wr⟩ w2).2 =
      [str "FLAG:" ++ portOf addr ++
        (if w2.testMode then str ":TEST" else str ":NOTEST")] := by
    intro w2
    cases wr <;> cases h : w2.testMode <;>
      simp [checkSingleInstance, writes, flagMessage, h]
  have h12345 : str "127.0.0.1:" ++ existingPort = str "127.0.0.1:12345" := by decide
  have hport : existingPort = str "12345" := rfl
  refine ⟨?_, ?_, rfl, ?_, hw w, ?_, ?_⟩
  · obtain ⟨l, d2, wr2⟩ := env
    cases l <;> cases d2 <;> cases wr2 <;> simp [checkSingleInstance]
  · simp only [checkSingleInstance, h12345]
    rfl
  · cases wr <;> simp [checkSingleInstance]
  · rw [hw w]
    intro h
    have h2 := congrArg (fun l => (l.map List.length)) h
    cases hm : w.testMode <;> simp [hm] at h2 <;> revert h2 <;> decide
  · have hm : ∀ w2 : World, (main test notest ⟨.ok addr, .ok (), wr⟩ w2).2 =
        (checkSingleInstance ⟨.ok addr, .ok (), wr⟩ (setTestMode test notest w2)).2 := by
      intro w2
      cases wr <;> simp [main, checkSingleInstance]
    rw [hm, hw, setTestMode_testMode]

/-! ## Coalescing -/

theorem runOps_sublist (ops : List ChanOp) (w : World) (h : w.testModeChan = []) :
    ((runOps ops w).taken ++ (runOps ops w).world.testModeChan).Sublist
      (runOps ops w).pushed := by
  induction ops using List.reverseRecOn with
  | nil => simp [runOps, h]
  | append_singleton ops op ih =>
    rw [runOps_snoc]
    cases op with
    | push v =>
      show ((runOps ops w).taken ++
          (updateSystrayForTestMode v (runOps ops w).world).testModeChan).Sublist
        ((runOps ops w).pushed ++ [v])
      by_cases h0 : (runOps ops w).world.testModeChan = []
      · rw [push_empty v _ h0]
        rw [h0, List.append_nil] at ih
        exact ih.append (List.Sublist.refl [v])
      · have h1 : 1 ≤ (runOps ops w).world.testModeChan.length := by
          cases hc : (runOps ops w).world.testModeChan with
          | nil => exact absurd hc h0
          | cons a l => simp
        rw [push_full v _ h1]
        exact ih.trans (List.sublist_append_left _ _)
    | drain =>
      show (((runOps ops w).taken ++ (consumerIteration (runOps ops w).world).1.toList) ++
          (consumerIteration (runOps ops w).world).2.testModeChan).Sublist
        (runOps ops w).pushed
      obtain ⟨h1, h2, _⟩ := drain_chan (runOps ops w).world
      rw [h1, h2]
      cases hc : (runOps ops w).world.testModeChan with
      | nil => rw [hc] at ih; simpa using ih
      | cons a l => rw [hc] at ih; simpa using ih

/-- C8: coalescing without corruption. Over every interleaving of pushes and
consumer-loop drains from an empty channel, the values the consumer has
received, followed by what the channel still holds, form a subsequence of the
values pushed so far: each received value was pushed earlier and is matched to
a push of its own. In particular after a push of `a` then a push of `b` with
no drain in between, the next drain receives `a`, one of the two. -/
theorem drains_take_only_pushed_values (ops : List ChanOp) (w : World) (a b : Bool) :
    ((runOps ops { w with testModeChan := [] }).taken ++
        (runOps ops { w with testModeChan := [] }).world.testModeChan).Sublist
        (runOps ops { w with testModeChan := [] }).pushed ∧
      (∀ v ∈ (runOps ops { w with testModeChan := [] }).taken,
        v ∈ (runOps ops { w with testModeChan := [] }).pushed) ∧
      (runOps ops { w with testModeChan := [] }).taken.length ≤
        (runOps ops { w with testModeChan := [] }).pushed.length ∧
      (runOps [ChanOp.push a, ChanOp.push b, ChanOp.drain]
        { w with testModeChan := [] }).taken = [a] ∧
      (consumerIteration (updateSystrayForTestMode b
        (updateSystrayForTestMode a { w with testModeChan := [] }))).1 = some a := by
  have hs := runOps_sublist ops { w with testModeChan := [] } rfl
  have ht : (runOps ops { w with testModeChan := [] }).taken.Sublist
      (runOps ops { w with testModeChan := [] }).pushed :=
    (List.sublist_append_left _ _).trans hs
  have hab : (consumerIteration (updateSystrayForTestMode b
      (updateSystrayForTestMode a { w with testModeChan := [] }))).1 = some a := by
    rw [push_empty a _ rfl, push_full b _ (by simp), (drain_chan _).2.1]
    rfl
  refine ⟨hs, fun v hv => ht.subset hv, ht.length_le, ?_, hab⟩
  show [] ++ (consumerIteration (updateSystrayForTestMode b
      (updateSystrayForTestMode a { w with testModeChan := [] }))).1.toList = [a]
  rw [hab]
  rfl

/-! ## Several processes -/

/-- C9: the code breaks exclusivity. Two processes are launched together and
both dial `127.0.0.1:12345` before either flag server has bound it, so both
dials are refused. Both `checkSingleInstance` calls then take the branch
`// No existing instance` and return `true`, and both `main`s start a flag
server and reach `systray.Run`: two leaders, no follower. The flag server
that binds first enters its accept loop; the one whose `net.Listen` then
fails logs the error and returns, leaving its process running as a leader
without the listener. -/
theorem concurrent_launch_two_leaders :
    (checkSingleInstance
        ⟨.ok (str "127.0.0.1:4001"),
          .error "dial tcp 127.0.0.1:12345: connect: connection refused", .ok ()⟩
        (setTestMode true false World.init)).1 = true ∧
      (checkSingleInstance
        ⟨.ok (str "127.0.0.1:4002"),
          .error "dial tcp 127.0.0.1:12345: connect: connection refused", .ok ()⟩
        (setTestMode false false World.init)).1 = true ∧
      (main true false
        ⟨.ok (str "127.0.0.1:4001"),
          .error "dial tcp 127.0.0.1:12345: connect: connection refused", .ok ()⟩
        World.init).2 =
        [Event.listen (str "127.0.0.1:0"), Event.dial (str "127.0.0.1:12345"),
         Event.goStartFlagServer (str "12345"), Event.closeListener, Event.systrayRun] ∧
      (main false false
        ⟨.ok (str "127.0.0.1:4002"),
          .error "dial tcp 127.0.0.1:12345: connect: connection refused", .ok ()⟩
        World.init).2 =
        [Event.listen (str "127.0.0.1:0"), Event.dial (str "127.0.0.1:12345"),
         Event.goStartFlagServer (str "12345"), Event.closeListener, Event.systrayRun] ∧
      startFlagServer (str "12345") (.ok ()) [] = [Event.listen (str "127.0.0.1:12345")] ∧
      startFlagServer (str "12345")
          (.error "listen tcp 127.0.0.1:12345: bind: address already in use") [] =
        [Event.listen (str "127.0.0.1:12345"),
         Event.logPrintf "Failed to start flag server: %v"
           "listen tcp 127.0.0.1:12345: bind: address already in use"] := by
  decide

end Micman2
